import Mathlib

/-!
# Verification of jasmine-as-promised (src/jasmine-as-promised.js)

A shallow embedding of the library's functional core:

* the duck-typed deferred-value detector `isPromise` (source lines 125-128);
* the `runs()` interceptor installed over `jasmine.Spec.prototype.runs`
  (source lines 155-198), with its completion latch `result` and the
  `onReleaseWait` callback (lines 157-162);
* the installation guard `jasmineAsPromised` (lines 139-144, 209-211);
* the Node/browser activation wrapper `module.exports` (lines 80-105).

JavaScript values are modelled by the inductive `JSValue`; the host
framework's `runs`/`waitsFor` primitives are external collaborators (the
spec treats them as a black box), modelled by their interface: `runs`
invokes a body with no arguments, `waitsFor` polls a boolean condition
until true or a timeout elapses.
-/

namespace JasmineAsPromised

/-- A JavaScript value, restricted to the shapes the library inspects:
`undefined`, `null`, numbers, strings, booleans, callable functions
(identified by a tag), and plain objects given by their property list. -/
inductive JSValue where
  | undefined : JSValue
  | null : JSValue
  | number : Int → JSValue
  | string : String → JSValue
  | boolean : Bool → JSValue
  | function : Nat → JSValue
  | object : List (String × JSValue) → JSValue

/-- JavaScript's `typeof` operator on the modelled values.
Note `typeof null === "object"`. -/
def jsTypeof : JSValue → String
  | .undefined => "undefined"
  | .null => "object"
  | .number _ => "number"
  | .string _ => "string"
  | .boolean _ => "boolean"
  | .function _ => "function"
  | .object _ => "object"

/-- Whether the value is JavaScript's `null` (the `x !== null` test). -/
def isNull : JSValue → Bool
  | .null => true
  | _ => false

/-- Property lookup on an object's own property list; absent properties
read as `undefined`, and property access on non-object primitives other
than `undefined`/`null` also yields `undefined` for the names the library
uses. -/
def getProp : JSValue → String → JSValue
  | .object props, name =>
      match props.find? (fun p => p.1 == name) with
      | some p => p.2
      | none => .undefined
  | _, _ => .undefined

/-- Property access as JavaScript evaluates it: reading a property of
`undefined` or `null` throws a `TypeError`; everything else succeeds. -/
def getPropE (x : JSValue) (name : String) : Except String JSValue :=
  match x with
  | .undefined => .error ("TypeError: cannot read property " ++ name ++ " of undefined")
  | .null => .error ("TypeError: cannot read property " ++ name ++ " of null")
  | _ => .ok (getProp x name)

/-- The deferred-value detector, source lines 125-128:
`typeof x === "object" && x !== null && typeof x.then === "function"`. -/
def isPromise (x : JSValue) : Bool :=
  jsTypeof x == "object" && !isNull x && jsTypeof (getProp x "then") == "function"

/-- The detector with JavaScript's exception behaviour made explicit:
the `&&` chain short-circuits, so `.then` is only read once the value is
known to be a non-null object, where property access cannot throw. -/
def isPromiseE (x : JSValue) : Except String Bool :=
  if jsTypeof x == "object" then
    if !isNull x then
      match getPropE x "then" with
      | .ok t => .ok (jsTypeof t == "function")
      | .error e => .error e
    else .ok false
  else .ok false

/-- Whether a value is callable (`typeof v === "function"`). -/
def isCallable (v : JSValue) : Bool :=
  jsTypeof v == "function"

/-- The detector as the spec words it: true iff the value is a non-null
object-like value exposing a property named `then` whose value is
callable. Stated from the spec's words, to be compared with `isPromise`,
which is translated from the source. -/
def isDeferredSpec (x : JSValue) : Bool :=
  jsTypeof x == "object" && !isNull x && isCallable (getProp x "then")

/-! ## The `runs()` interceptor (source lines 155-198) -/

/-- How a conformant deferred computation settles. -/
inductive Outcome where
  | resolved : JSValue → Outcome
  | rejected : JSValue → Outcome

/-- Settlement behaviour of the deferred computation a step body returned:
the tick at which it settles (`none` = it never settles) and its outcome. -/
structure PromiseSpec where
  settlesAt : Option Nat
  outcome : Outcome

/-- The inputs to one interceptor invocation: the value `runFn.call()`
returns, the settlement behaviour attached to that value when it is a
deferred computation, whether an `expectFn` follow-up was supplied, and
the optional `timeOut` argument. -/
structure StepInput where
  retVal : JSValue
  behavior : PromiseSpec
  hasExpectFn : Bool
  timeOut : Option Nat

/-- `onReleaseWait` (source lines 158-162): `return result = true;` —
overwrites the latch with `true` whatever it held, and does nothing
else (the latch is the only state in its closure). -/
def onReleaseWait : Bool → Bool := fun _ => true

/-- The initial value of the latch: `var result = false` (line 157). -/
def initialLatch : Bool := false

/-- The host's original `runs` primitive invokes the supplied body
function with no arguments (`fn.call(this.spec)`); the host framework is
the black-box collaborator of the spec, modelled by this interface. -/
def runStepInvocationArgs : List JSValue := []

/-- The value bound to the i-th declared parameter of a JavaScript
function invoked with the given argument list: missing arguments read as
`undefined`. -/
def jsArg (args : List JSValue) (i : Nat) : JSValue :=
  args.getD i .undefined

/-- What one interceptor invocation does, as a record of its interactions
with the host primitives and the deferred computation. -/
structure InterceptorTrace where
  /-- The latch value once the adapter passed to the first `runs` call has
  executed (i.e. when `waitsFor` is armed). -/
  latchAfterAdapter : Bool
  /-- The single `(success, failure)` callback pair the adapter registered
  on the returned deferred computation via `retVal.then(...)`, if any;
  each callback is its action on the latch. -/
  registeredCallbacks : Option ((Bool → Bool) × (Bool → Bool))
  /-- The timeout argument the interceptor passed to `waitsFor`. -/
  waitsForTimeout : Option Nat
  /-- The argument list `expectFn` is invoked with when the interceptor
  hands it to the original `runs` primitive; `none` when no follow-up was
  supplied. -/
  followUpArgs : Option (List JSValue)

/-- The interceptor (source lines 155-198). (1) it delegates to the
original `runs` with an adapter that calls `runFn`, and either registers
`onReleaseWait` as both settlement callbacks on a returned promise or
calls `onReleaseWait` immediately; (2) it delegates to `waitsFor` with a
closure reading the latch, forwarding `timeOut`; (3) if `expectFn` is
defined it delegates to the original `runs` with `expectFn` as the body. -/
def interceptor (inp : StepInput) : InterceptorTrace :=
  { latchAfterAdapter :=
      if isPromise inp.retVal then initialLatch else onReleaseWait initialLatch
    registeredCallbacks :=
      if isPromise inp.retVal then some (onReleaseWait, onReleaseWait) else none
    waitsForTimeout := inp.timeOut
    followUpArgs := if inp.hasExpectFn then some runStepInvocationArgs else none }

/-- The latch value the `waitsFor` condition closure reads at poll tick
`t`: the adapter's value, updated by the registered settlement callback
(success or failure, per the outcome) once the deferred computation has
settled. A conformant deferred computation fires the callback at most
once; a value that is not a deferred computation never fires one. -/
def latchAt (inp : StepInput) (t : Nat) : Bool :=
  let tr := interceptor inp
  match tr.registeredCallbacks with
  | none => tr.latchAfterAdapter
  | some cbs =>
      match inp.behavior.settlesAt with
      | none => tr.latchAfterAdapter
      | some s =>
          if s ≤ t then
            match inp.behavior.outcome with
            | .resolved _ => cbs.1 tr.latchAfterAdapter
            | .rejected _ => cbs.2 tr.latchAfterAdapter
          else tr.latchAfterAdapter

/-- The timeout the host's `waitsFor` primitive effectively uses: the
forwarded value when present, else the host's own default. -/
def effectiveTimeout (forwarded : Option Nat) (hostDefault : Nat) : Nat :=
  forwarded.getD hostDefault

/-- The first poll tick (0, 1, ..., up to the effective timeout) at which
the `waitsFor` condition evaluates true; `none` means the timeout path is
taken. -/
def pollFirstSuccess (inp : StepInput) (hostDefault : Nat) : Option Nat :=
  let tmo := effectiveTimeout (interceptor inp).waitsForTimeout hostDefault
  (List.range (tmo + 1)).find? (fun t => latchAt inp t)

/-! ## Installation guard (source lines 139-213) -/

/-- The contents of the `jasmine.Spec.prototype.runs` slot: either the
framework's original primitive, or the interceptor closed over a captured
copy of whatever the slot held when the patch was applied. -/
inductive RunsSlot where
  | original : RunsSlot
  | interceptor : RunsSlot → RunsSlot
deriving DecidableEq

/-- The handle passed to the activation function `jasmineAsPromised`:
absent/`undefined`, `null`, a defined object lacking a usable `Spec`
constructor, or the real framework. -/
inductive Handle where
  | undefinedH : Handle
  | nullH : Handle
  | objNoSpec : Handle
  | framework : Handle
deriving DecidableEq

/-- `isDefined` (source lines 133-136): `typeof value != 'undefined'`;
note `null` is defined. -/
def isDefinedHandle : Handle → Bool
  | .undefinedH => false
  | _ => true

/-- JavaScript truthiness of a handle, for the wrapper's `if (!target)`
test: `undefined` and `null` are falsy, objects are truthy. -/
def isTruthy : Handle → Bool
  | .undefinedH => false
  | .nullH => false
  | _ => true

/-- The module-level mutable state: the `duckPunchedAlready` flag and the
real framework's `Spec.prototype.runs` slot. -/
structure InstallState where
  duckPunchedAlready : Bool
  specRuns : RunsSlot
deriving DecidableEq

/-- The state before the module has ever been activated. -/
def freshInstallState : InstallState :=
  { duckPunchedAlready := false, specRuns := .original }

/-- The activation function `jasmineAsPromised` (source lines 139-213),
as a state transformer returning the new state and the message of the
exception it threw, if any. It returns at once if `duckPunchedAlready` or
the handle is undefined; otherwise it sets `duckPunchedAlready` to true
and only then dereferences `jasmine.Spec.prototype.runs` — which throws a
`TypeError` on a `null` handle (`null.Spec`) or one without a `Spec`
object (`undefined.prototype`), and on the real framework captures the
current `runs`/`waitsFor` and overwrites the `runs` slot with the
interceptor. -/
def jasmineAsPromised (st : InstallState) (h : Handle) : InstallState × Option String :=
  if st.duckPunchedAlready then (st, none)
  else if !isDefinedHandle h then (st, none)
  else
    let st1 : InstallState := { st with duckPunchedAlready := true }
    match h with
    | .nullH => (st1, some "TypeError: Cannot read property Spec of null")
    | .objNoSpec => (st1, some "TypeError: Cannot read property prototype of undefined")
    | .framework => ({ st1 with specRuns := .interceptor st1.specRuns }, none)
    | .undefinedH => (st1, none)

/-- The install state after a sequence of activation calls starting from
the fresh state (each call's exception, if any, is caught by the caller;
the mutated module state persists). -/
def installSeq (hs : List Handle) : InstallState :=
  hs.foldl (fun st h => (jasmineAsPromised st h).1) freshInstallState

/-! ## Activation wrapper `module.exports` (source lines 80-105) -/

/-- The environment the Node-flavoured wrapper probes: whether `process`
is a real Node.js process object, what `findNodeJSTarget(require.main,
suffix)` locates (`none` = `undefined`), and the global `jasmine` binding
(`none` = undefined). -/
structure NodeEnv where
  isRealNode : Bool
  foundModule : Option Handle
  globalJasmine : Option Handle

/-- The `module.exports` wrapper (source lines 80-105): when the `target`
argument is falsy it auto-discovers a Jasmine instance — in real Node.js
via the module tree, throwing a descriptive `Error` if none is found; in
a browserify-like environment via the `jasmine` global, throwing a
descriptive `Error` if the environment cannot be identified — and finally
delegates to `jasmineAsPromised` with the chosen target. -/
def moduleExportsEntry (env : NodeEnv) (st : InstallState) (target : Handle) :
    InstallState × Option String :=
  if !isTruthy target then
    if env.isRealNode then
      match env.foundModule with
      | some t => jasmineAsPromised st t
      | none =>
          (st, some ("Attempted to automatically plug in to Jasmine, but could not " ++
            "detect a running Jasmine module."))
    else
      match env.globalJasmine with
      | some t => jasmineAsPromised st t
      | none =>
          (st, some ("Attempted to automatically plug in to Jasmine, but could not " ++
            "detect the environment. Plug in manually by passing the running Jasmine module."))
  else jasmineAsPromised st target

/-! ## Concrete inputs used in examples and witnesses -/

/-- A promise-shaped value: an object with a callable `then`. -/
def promiseValue : JSValue :=
  .object [("then", .function 0)]

/-- A step whose body returns a deferred computation that fulfills with
`5` at tick 0, with a follow-up supplied and no explicit timeout. -/
def fulfilledWith5 : StepInput :=
  { retVal := promiseValue
    behavior := { settlesAt := some 0, outcome := .resolved (.number 5) }
    hasExpectFn := true
    timeOut := none }

/-- A step whose body returns a deferred computation that rejects with
`"boom"` at tick 2, with an explicit timeout of 500. -/
def rejectedWithBoom : StepInput :=
  { retVal := promiseValue
    behavior := { settlesAt := some 2, outcome := .rejected (.string "boom") }
    hasExpectFn := false
    timeOut := some 500 }

/-- A step whose body returns `undefined` (a purely synchronous body). -/
def syncStep : StepInput :=
  { retVal := .undefined
    behavior := { settlesAt := none, outcome := .resolved .undefined }
    hasExpectFn := false
    timeOut := none }

/-! ## Helper lemmas -/

/-- `onReleaseWait` sets the latch to `true` whatever it held. -/
theorem onReleaseWait_sets_true (b : Bool) : onReleaseWait b = true := rfl

/-- Characterization of the latch over time: for a non-deferred return it
is `true` from the adapter on; for a deferred return it is `true` exactly
from the settlement tick on (either outcome), and never for a computation
that never settles. -/
theorem latchAt_char (inp : StepInput) (t : Nat) :
    latchAt inp t =
      if isPromise inp.retVal then
        match inp.behavior.settlesAt with
        | some s => decide (s ≤ t)
        | none => false
      else true := by
  by_cases h : isPromise inp.retVal
  · simp only [latchAt, interceptor, h, if_true]
    cases hs : inp.behavior.settlesAt with
    | none => rfl
    | some s =>
        by_cases hst : s ≤ t
        · cases inp.behavior.outcome <;> simp [hst, onReleaseWait, initialLatch]
        · simp [hst, initialLatch]
  · simp [latchAt, interceptor, h, onReleaseWait]

/-- The latch, viewed over poll ticks, is monotone. -/
theorem latchAt_mono (inp : StepInput) (t u : Nat) (htu : t ≤ u)
    (ht : latchAt inp t = true) : latchAt inp u = true := by
  rw [latchAt_char] at ht ⊢
  by_cases h : isPromise inp.retVal
  · simp only [h, if_true] at ht ⊢
    cases hs : inp.behavior.settlesAt with
    | none => rw [hs] at ht; exact absurd ht (by simp)
    | some s =>
        rw [hs] at ht
        simp only [decide_eq_true_eq] at ht ⊢
        exact le_trans ht htu
  · simp [h]

/-- The invariant preserved by every activation call: the `runs` slot is
never double-wrapped, and it is still the original while the flag is
down. -/
def InstallInv (st : InstallState) : Prop :=
  (st.duckPunchedAlready = false → st.specRuns = .original) ∧
  (st.specRuns = .original ∨ st.specRuns = .interceptor .original)

/-- One activation call preserves `InstallInv`, whether it is a no-op, a
successful install, or an aborted install on an invalid handle. -/
theorem install_step_inv (st : InstallState) (h : Handle) (hi : InstallInv st) :
    InstallInv (jasmineAsPromised st h).1 := by
  obtain ⟨hflag, hwrap⟩ := hi
  unfold jasmineAsPromised
  by_cases hd : st.duckPunchedAlready
  · simp only [hd, if_true]
    exact ⟨hflag, hwrap⟩
  · simp only [Bool.not_eq_true] at hd
    have hruns := hflag hd
    simp only [hd, Bool.false_eq_true, if_false]
    cases h with
    | undefinedH => simp [isDefinedHandle]; exact ⟨hflag, hwrap⟩
    | nullH =>
        simp [isDefinedHandle, hruns]
        exact ⟨fun hc => Bool.noConfusion hc, Or.inl rfl⟩
    | objNoSpec =>
        simp [isDefinedHandle, hruns]
        exact ⟨fun hc => Bool.noConfusion hc, Or.inl rfl⟩
    | framework =>
        simp [isDefinedHandle, hruns]
        exact ⟨fun hc => Bool.noConfusion hc, Or.inr rfl⟩

/-- The invariant holds after any sequence of activation calls from the
fresh state. -/
theorem installSeq_inv (hs : List Handle) : InstallInv (installSeq hs) := by
  have key : ∀ (l : List Handle) (st : InstallState), InstallInv st →
      InstallInv (l.foldl (fun st h => (jasmineAsPromised st h).1) st) := by
    intro l
    induction l with
    | nil => intro st hst; exact hst
    | cons a l ih =>
        intro st hst
        exact ih _ (install_step_inv st a hst)
  exact key hs freshInstallState ⟨fun _ => rfl, Or.inl rfl⟩

/-! ## Claim theorems -/

/-- C3: the detector `isPromise` returns true iff the value is a non-null
object-like value with a callable `then` property; in particular it is
true for `{ then: function(a,b){} }` and false for `null`, `undefined`,
`42`, `"string"`, `{}`, and `{ then: "not a function" }`. -/
theorem C3_detector_correct :
    (∀ x, isPromise x = isDeferredSpec x) ∧
    isPromise (JSValue.object [("then", JSValue.function 0)]) = true ∧
    isPromise JSValue.null = false ∧
    isPromise JSValue.undefined = false ∧
    isPromise (JSValue.number 42) = false ∧
    isPromise (JSValue.string "string") = false ∧
    isPromise (JSValue.object []) = false ∧
    isPromise (JSValue.object [("then", JSValue.string "not a function")]) = false :=
  ⟨fun _ => rfl, rfl, rfl, rfl, rfl, rfl, rfl, rfl⟩

/-- C8: the detector is total and pure: on every input, including `null`,
`undefined` and primitives, it returns a boolean and never throws (the
`&&` chain guards the `.then` access, the only one that could throw). -/
theorem C8_detector_total (x : JSValue) :
    isPromiseE x = Except.ok (isPromise x) := by
  cases x <;> rfl

/-- C1: evaluation at the failing input. For a step whose body returns a
deferred computation fulfilling with `5` and a supplied follow-up, the
interceptor hands the follow-up to the original `runs` primitive, which
invokes it with no arguments: the follow-up's parameter is bound to
`undefined`, not to the settled value `5` — `onReleaseWait` discards the
value, and nothing else captures it. -/
theorem C1_followUp_receives_no_value :
    isPromise fulfilledWith5.retVal = true ∧
    latchAt fulfilledWith5 0 = true ∧
    (interceptor fulfilledWith5).followUpArgs = some [] ∧
    jsArg (((interceptor fulfilledWith5).followUpArgs).getD []) 0 = JSValue.undefined ∧
    jsArg (((interceptor fulfilledWith5).followUpArgs).getD []) 0 ≠ JSValue.number 5 := by
  refine ⟨rfl, by decide, rfl, rfl, ?_⟩
  intro h
  exact JSValue.noConfusion h

/-- C2: for a step whose body returns a deferred computation, the
interceptor registers the single callback pair
`(onReleaseWait, onReleaseWait)` on it; both callbacks set the latch to
true and do nothing else, so settlement — at its tick and ever after —
releases the latch, and a rejection does so exactly as a fulfillment. -/
theorem C2_both_callbacks_release_latch (inp : StepInput)
    (hp : isPromise inp.retVal = true) :
    (interceptor inp).registeredCallbacks = some (onReleaseWait, onReleaseWait) ∧
    (∀ b, onReleaseWait b = true) ∧
    (∀ s, inp.behavior.settlesAt = some s → ∀ t, s ≤ t → latchAt inp t = true) ∧
    (∀ v r t,
      latchAt { inp with behavior := { inp.behavior with outcome := .rejected r } } t
        = latchAt { inp with behavior := { inp.behavior with outcome := .resolved v } } t) := by
  refine ⟨by simp [interceptor, hp], onReleaseWait_sets_true, ?_, ?_⟩
  · intro s hs t hst
    rw [latchAt_char]
    simp [hp, hs, hst]
  · intro v r t
    rw [latchAt_char, latchAt_char]

/-- C2 witness: a deferred computation rejecting with `"boom"` at tick 2
releases the latch at tick 2 and it stays released at tick 5. -/
theorem C2_both_callbacks_release_latch_witness :
    latchAt rejectedWithBoom 2 = true ∧ latchAt rejectedWithBoom 5 = true :=
  ⟨(C2_both_callbacks_release_latch rejectedWithBoom rfl).2.2.1 2 rfl 2 (by decide),
   (C2_both_callbacks_release_latch rejectedWithBoom rfl).2.2.1 2 rfl 5 (by decide)⟩

/-- C4: installation is idempotent: once the flag is up every activation
call (with any handle) returns the state unchanged and throws nothing; an
undefined handle is likewise a no-op; and after any sequence of
activation calls from the fresh state the `runs` slot is either the
original or the interceptor wrapping the original — never nested. -/
theorem C4_installation_idempotent :
    (∀ st h, st.duckPunchedAlready = true → jasmineAsPromised st h = (st, none)) ∧
    (∀ st, jasmineAsPromised st Handle.undefinedH = (st, none)) ∧
    (∀ hs, (installSeq hs).specRuns = RunsSlot.original ∨
           (installSeq hs).specRuns = RunsSlot.interceptor RunsSlot.original) := by
  refine ⟨?_, ?_, ?_⟩
  · intro st h hflag
    simp [jasmineAsPromised, hflag]
  · intro st
    by_cases hd : st.duckPunchedAlready <;>
      simp [jasmineAsPromised, hd, isDefinedHandle]
  · intro hs
    exact (installSeq_inv hs).2

/-- C4 witness: a second activation on an already-patched state is the
identity, even with the real framework handle. -/
theorem C4_installation_idempotent_witness :
    jasmineAsPromised ⟨true, RunsSlot.interceptor RunsSlot.original⟩ Handle.framework
      = (⟨true, RunsSlot.interceptor RunsSlot.original⟩, none) :=
  C4_installation_idempotent.1 ⟨true, RunsSlot.interceptor RunsSlot.original⟩
    Handle.framework rfl

/-- C5: for a step whose body returns a non-deferred value the adapter
sets the latch synchronously, so the latch is already true when
`waitsFor` is armed, the poll condition holds on the very first check,
and the timeout path is never taken, whatever the host's default. -/
theorem C5_non_deferred_immediate (inp : StepInput)
    (h : isPromise inp.retVal = false) :
    (interceptor inp).latchAfterAdapter = true ∧
    latchAt inp 0 = true ∧
    (∀ d, pollFirstSuccess inp d = some 0) := by
  have h0 : latchAt inp 0 = true := by rw [latchAt_char]; simp [h]
  refine ⟨by simp [interceptor, h, onReleaseWait], h0, ?_⟩
  intro d
  simp only [pollFirstSuccess]
  rw [List.range_succ_eq_map]
  simp [List.find?, h0]

/-- C5 witness: a body returning `undefined` completes on the first poll
check under a host default timeout of 10. -/
theorem C5_non_deferred_immediate_witness :
    isPromise syncStep.retVal = false ∧ pollFirstSuccess syncStep 10 = some 0 :=
  ⟨rfl, (C5_non_deferred_immediate syncStep rfl).2.2 10⟩

/-- C6: the interceptor forwards its `timeOut` argument to `waitsFor`
unchanged, and when it is absent the poll primitive receives no timeout,
so the host's default applies. -/
theorem C6_timeout_forwarded (inp : StepInput) (d : Nat) :
    (interceptor inp).waitsForTimeout = inp.timeOut ∧
    (inp.timeOut = none →
      effectiveTimeout (interceptor inp).waitsForTimeout d = d) := by
  refine ⟨rfl, ?_⟩
  intro h
  simp [interceptor, effectiveTimeout, h]

/-- C6 witness: an explicit timeout of 500 is forwarded as 500; with no
explicit timeout the host's default (here 5000) applies. -/
theorem C6_timeout_forwarded_witness :
    (interceptor rejectedWithBoom).waitsForTimeout = some 500 ∧
    effectiveTimeout (interceptor syncStep).waitsForTimeout 5000 = 5000 :=
  ⟨(C6_timeout_forwarded rejectedWithBoom 0).1,
   (C6_timeout_forwarded syncStep 5000).2 rfl⟩

/-- C7: the completion latch is monotonic: it starts false, every
mutation (settlement callback or non-deferred shortcut, all of which are
`onReleaseWait`) writes true, and once the poll condition observes true
it observes true at every later tick. -/
theorem C7_latch_monotone (inp : StepInput) :
    initialLatch = false ∧
    (∀ b, onReleaseWait b = true) ∧
    (∀ t u, t ≤ u → latchAt inp t = true → latchAt inp u = true) :=
  ⟨rfl, onReleaseWait_sets_true, fun t u htu ht => latchAt_mono inp t u htu ht⟩

/-- C7 witness: the latch of the step rejecting at tick 2, observed true
at tick 2, is still true at tick 10. -/
theorem C7_latch_monotone_witness : latchAt rejectedWithBoom 10 = true :=
  (C7_latch_monotone rejectedWithBoom).2.2 2 10 (by decide) (by decide)

set_option maxRecDepth 4096 in
/-- C9: when the wrapper is invoked without an explicit handle and
auto-discovery fails — real Node.js with no Jasmine module in the module
tree, or an unidentifiable environment with no `jasmine` global — it
throws an `Error` with a non-empty descriptive message instead of
silently doing nothing. -/
theorem C9_autodiscovery_fails_loud (env : NodeEnv) (st : InstallState)
    (hfail : (env.isRealNode = true ∧ env.foundModule = none) ∨
             (env.isRealNode = false ∧ env.globalJasmine = none)) :
    ∃ msg, moduleExportsEntry env st Handle.undefinedH = (st, some msg) ∧
      0 < msg.length := by
  rcases hfail with ⟨h1, h2⟩ | ⟨h1, h2⟩
  · refine ⟨"Attempted to automatically plug in to Jasmine, but could not " ++
        "detect a running Jasmine module.", ?_, by decide⟩
    simp [moduleExportsEntry, isTruthy, h1, h2]
  · refine ⟨"Attempted to automatically plug in to Jasmine, but could not " ++
        "detect the environment. Plug in manually by passing the running Jasmine module.",
        ?_, by decide⟩
    simp [moduleExportsEntry, isTruthy, h1, h2]

/-- C9 witness: in real Node.js with no Jasmine module found, activation
without a handle throws a non-empty descriptive error. -/
theorem C9_autodiscovery_fails_loud_witness :
    ∃ msg, moduleExportsEntry ⟨true, none, none⟩ freshInstallState Handle.undefinedH
      = (freshInstallState, some msg) ∧ 0 < msg.length :=
  C9_autodiscovery_fails_loud ⟨true, none, none⟩ freshInstallState (Or.inl ⟨rfl, rfl⟩)

/-- C10: installation is not atomic on error: activating with a defined
but invalid handle (`null`, or an object without a `Spec` constructor)
sets the flag before the dereference throws, so the flag stays up, the
`runs` slot is still the original, and a later activation with the real
framework handle is a no-op — the patch is never applied in that
process. -/
theorem C10_install_not_atomic_on_error :
    (jasmineAsPromised freshInstallState Handle.nullH).1.duckPunchedAlready = true ∧
    (jasmineAsPromised freshInstallState Handle.nullH).2.isSome = true ∧
    (jasmineAsPromised freshInstallState Handle.nullH).1.specRuns = RunsSlot.original ∧
    (jasmineAsPromised (jasmineAsPromised freshInstallState Handle.nullH).1 Handle.framework
      = ((jasmineAsPromised freshInstallState Handle.nullH).1, none)) ∧
    (jasmineAsPromised freshInstallState Handle.objNoSpec).1.duckPunchedAlready = true ∧
    (jasmineAsPromised freshInstallState Handle.objNoSpec).2.isSome = true := by
  refine ⟨rfl, rfl, rfl, ?_, rfl, rfl⟩
  decide

end JasmineAsPromised
